import Mathlib

/-!
Shallow embedding of the lukas-tr/blog repository sources:
* `src/components/UtterancesComments.js` — the comments-embedding widget,
* the page-shell component (`Body`),
* the site-generator plugin manifest (`gatsby-config.js`).
-/

/-! ## The comments component (`UtterancesComments`) -/

/-- A `<script>` element as created by `document.createElement("script")`
and configured in the ref callback of `UtterancesComments`. -/
structure ScriptElem where
  src : String
  async : Bool
  crossOrigin : String
  attributes : List (String × String)
deriving Repr, DecidableEq

/-- The script element built in the ref callback: fields set directly
(`src`, `async`, `crossOrigin`) plus the four `setAttribute` calls. -/
def utterancesScriptElem : ScriptElem :=
  { src := "https://utteranc.es/client.js"
    async := true
    crossOrigin := "anonymous"
    attributes := [("repo", "lukas-tr/blog"), ("issue-term", "title"),
                   ("label", "comment"), ("theme", "github-light")] }

/-- The mount target: a DOM element with its list of appended script children.
The `<section>` rendered by the component starts with no children. -/
structure DomElement where
  children : List ScriptElem
deriving Repr, DecidableEq

/-- The ref callback of `UtterancesComments`, as a function from the
(possibly null) mount element to its state after the callback:
`if (!elem || process.env.NODE_ENV === "development") return;` and
otherwise `elem.appendChild(scriptElem)`. -/
def utterancesRef (nodeEnv : String) (elem : Option DomElement) : Option DomElement :=
  match elem with
  | none => none
  | some e =>
    if nodeEnv == "development" then some e
    else some { children := e.children ++ [utterancesScriptElem] }

/-- `n` successive mounts of the component onto the same target:
the ref callback runs once per mount. -/
def utterancesMountN (nodeEnv : String) : Nat → Option DomElement → Option DomElement
  | 0, elem => elem
  | n + 1, elem => utterancesMountN nodeEnv n (utterancesRef nodeEnv elem)

/-! ## JavaScript value semantics used by the page shell

`_.get` returns `undefined` when a path is absent; the title computation
uses `&&` and `+`, whose coercions matter: `undefined + "x"` is the
string `"undefinedx"`, while `undefined + undefined` is the numeric
addition `NaN`. -/

/-- A JavaScript value as used by the page shell: `undefined` (the
result of `_.get` on an absent path), a string, or `NaN` (which only
arises here from `+` on two non-strings). -/
inductive JSVal where
  | undef : JSVal
  | nan : JSVal
  | str : String → JSVal
deriving Repr, DecidableEq

/-- JavaScript truthiness restricted to the values above:
`undefined`, `NaN` and the empty string are falsy. -/
def JSVal.truthy : JSVal → Bool
  | .undef => false
  | .nan => false
  | .str s => s ≠ ""

/-- JavaScript `a && b`: returns `a` when `a` is falsy, else `b`. -/
def jsAnd (a b : JSVal) : JSVal :=
  if a.truthy then b else a

/-- String coercion: `String(undefined) = "undefined"` and
`String(NaN) = "NaN"`. -/
def JSVal.toStr : JSVal → String
  | .undef => "undefined"
  | .nan => "NaN"
  | .str s => s

/-- JavaScript `+` on these values: if either operand is a string, both
coerce to strings and concatenate; otherwise the operands are converted
to numbers (`Number(undefined) = NaN`, and `NaN` propagates), so the
result is `NaN`. -/
def jsAdd (a b : JSVal) : JSVal :=
  match a, b with
  | .str s, _ => .str (s ++ b.toStr)
  | _, .str s => .str (a.toStr ++ s)
  | _, _ => .nan

/-! ## The page shell (`Body`) -/

/-- The site metadata fields read by `Body.render` via `_.get` on
`pageContext.site.siteMetadata`; an absent field reads as `undef`. -/
structure SiteMetadata where
  title : JSVal
  description : JSVal
  author : JSVal
  image : JSVal
  siteUrl : JSVal
  layout_style : JSVal
  palette : JSVal
deriving Repr, DecidableEq

/-- The page frontmatter field read by `Body.render` via `_.get` on
`pageContext.frontmatter`. -/
structure Frontmatter where
  title : JSVal
deriving Repr, DecidableEq

/-- The input context of the page shell (`this.props.pageContext`). -/
structure PageContext where
  siteMetadata : SiteMetadata
  frontmatter : Frontmatter
deriving Repr, DecidableEq

/-- One `<meta name={m.name} property={m.property} content={m.content}>`
tag emitted by the map over the metadata array in `Body.render`. -/
structure MetaTag where
  name : Option String
  property : Option String
  content : JSVal
deriving Repr, DecidableEq

/-- The markup produced by `Body.render` that depends on the context:
the document title, the `url` field of the JSON-LD descriptor, the ten
meta tags, and the class name of the `#page` wrapper div. -/
structure Rendered where
  documentTitle : JSVal
  jsonLdUrl : JSVal
  metaTags : List MetaTag
  pageClassName : String
deriving Repr, DecidableEq

namespace Body

/-- `Body.render`: reads the five metadata fields, computes
`title = (fm.title && (fm.title + ' - ')) + site.title`, and emits the
head tags and the wrapper class
`'site style-' + layout_style + ' palette-' + palette`. -/
def render (ctx : PageContext) : Rendered :=
  let description := ctx.siteMetadata.description
  let title := jsAdd (jsAnd ctx.frontmatter.title
      (jsAdd ctx.frontmatter.title (.str " - "))) ctx.siteMetadata.title
  let author := ctx.siteMetadata.author
  let image := ctx.siteMetadata.image
  let url := ctx.siteMetadata.siteUrl
  { documentTitle := title
    jsonLdUrl := url
    metaTags :=
      [ { name := some "description", property := none, content := description }
      , { name := none, property := some "og:title", content := title }
      , { name := none, property := some "og:description", content := description }
      , { name := none, property := some "og:type", content := .str "website" }
      , { name := none, property := some "og:image", content := image }
      , { name := some "twitter:card", property := none, content := .str "summary" }
      , { name := some "twitter:creator", property := none, content := author }
      , { name := some "twitter:title", property := none, content := title }
      , { name := some "twitter:description", property := none, content := description }
      , { name := some "twitter:image", property := none, content := image } ]
    pageClassName := "site style-" ++ ctx.siteMetadata.layout_style.toStr
      ++ " palette-" ++ ctx.siteMetadata.palette.toStr }

end Body

/-! ## Operation trace of `Body.render`

The frame and purity claims are about what the render does to its input:
we list the operations the method body performs on the context and run
them through an interpreter in which a write would change the context. -/

/-- An operation on the page context (or the outside world). -/
inductive Op where
  | read : String → Op
  | write : String → JSVal → Op
  | networkCall : String → Op
deriving Repr, DecidableEq

/-- Whether an operation is a pure read. -/
def Op.isRead : Op → Bool
  | .read _ => true
  | _ => false

/-- Update a context field addressed by its `_.get` path. -/
def setPath (path : String) (v : JSVal) (ctx : PageContext) : PageContext :=
  if path == "pageContext.site.siteMetadata.description" then
    { ctx with siteMetadata := { ctx.siteMetadata with description := v } }
  else if path == "pageContext.site.siteMetadata.title" then
    { ctx with siteMetadata := { ctx.siteMetadata with title := v } }
  else if path == "pageContext.site.siteMetadata.author" then
    { ctx with siteMetadata := { ctx.siteMetadata with author := v } }
  else if path == "pageContext.site.siteMetadata.image" then
    { ctx with siteMetadata := { ctx.siteMetadata with image := v } }
  else if path == "pageContext.site.siteMetadata.siteUrl" then
    { ctx with siteMetadata := { ctx.siteMetadata with siteUrl := v } }
  else if path == "pageContext.site.siteMetadata.layout_style" then
    { ctx with siteMetadata := { ctx.siteMetadata with layout_style := v } }
  else if path == "pageContext.site.siteMetadata.palette" then
    { ctx with siteMetadata := { ctx.siteMetadata with palette := v } }
  else if path == "pageContext.frontmatter.title" then
    { ctx with frontmatter := { ctx.frontmatter with title := v } }
  else ctx

/-- Run one operation against the context: reads and network calls leave
it alone, writes update the addressed field. -/
def execOp (ctx : PageContext) (op : Op) : PageContext :=
  match op with
  | .read _ => ctx
  | .write path v => setPath path v ctx
  | .networkCall _ => ctx

/-- Run a trace of operations left to right. -/
def execOps (ops : List Op) (ctx : PageContext) : PageContext :=
  ops.foldl execOp ctx

/-- The operations `Body.render` performs on its context, in source
order: the nine `_.get` calls (the frontmatter title is read twice in
the title expression). No write and no network call occurs in the body. -/
def bodyRenderOps : List Op :=
  [ .read "pageContext.site.siteMetadata.description"
  , .read "pageContext.frontmatter.title"
  , .read "pageContext.frontmatter.title"
  , .read "pageContext.site.siteMetadata.title"
  , .read "pageContext.site.siteMetadata.author"
  , .read "pageContext.site.siteMetadata.image"
  , .read "pageContext.site.siteMetadata.siteUrl"
  , .read "pageContext.site.siteMetadata.layout_style"
  , .read "pageContext.site.siteMetadata.palette" ]

/-! ## The plugin manifest (`gatsby-config.js`) -/

/-- One rule of the robots.txt policy option. -/
structure RobotsRule where
  userAgent : String
  allow : String
deriving Repr, DecidableEq

/-- The option fields appearing in the manifest; a plugin listed as a
bare string has all options absent. -/
structure PluginOptions where
  exclude : Option (List String) := none
  policy : Option (List RobotsRule) := none
  name : Option String := none
  path : Option String := none
  inputFile : Option String := none
  outputFile : Option String := none
  subPlugins : Option (List String) := none
  sourceUrlPath : Option String := none
  pageContextProperty : Option String := none
deriving Repr, DecidableEq

/-- One entry of the `plugins` array. -/
structure PluginEntry where
  resolve : String
  options : PluginOptions := {}
deriving Repr, DecidableEq

/-- The `plugins` array of `module.exports` in `gatsby-config.js`, in
declared order; `__dirname`-relative paths keep their relative part. -/
def plugins : List PluginEntry :=
  [ { resolve := "gatsby-plugin-sitemap"
      options := { exclude := some ["/admin"] } }
  , { resolve := "gatsby-plugin-robots-txt"
      options := { policy := some [{ userAgent := "*", allow := "/" }] } }
  , { resolve := "gatsby-plugin-react-helmet" }
  , { resolve := "gatsby-source-data" }
  , { resolve := "gatsby-source-filesystem"
      options := { name := some "pages", path := some "src/pages" } }
  , { resolve := "gatsby-plugin-stackbit-static-sass"
      options := { inputFile := some "src/sass/main.scss"
                   outputFile := some "public/assets/css/main.css" } }
  , { resolve := "gatsby-transformer-remark"
      options := { subPlugins := some ["gatsby-remark-component", "gatsby-remark-vscode"] } }
  , { resolve := "gatsby-remark-page-creator" }
  , { resolve := "@stackbit/gatsby-plugin-menus"
      options := { sourceUrlPath := some "fields.url"
                   pageContextProperty := some "menus" } } ]

/-! ## Concrete contexts used by witnesses and counterexamples -/

/-- A context in which every metadata field and the frontmatter title are
absent. -/
def emptyCtx : PageContext :=
  { siteMetadata :=
      { title := .undef, description := .undef, author := .undef,
        image := .undef, siteUrl := .undef, layout_style := .undef,
        palette := .undef }
    frontmatter := { title := .undef } }

/-- A context whose frontmatter has no title but whose site metadata
title is present. -/
def noFmTitleCtx : PageContext :=
  { siteMetadata :=
      { title := .str "My Blog", description := .undef, author := .undef,
        image := .undef, siteUrl := .undef, layout_style := .undef,
        palette := .undef }
    frontmatter := { title := .undef } }

/-! ## Claim theorems -/

/-- C1: for every mount of the comments component with the development
environment flag set, the ref callback performs zero DOM mutations: the
mount target (present or not) is left exactly as it was. -/
theorem utterances_dev_no_mutation (elem : Option DomElement) :
    utterancesRef "development" elem = elem := by
  cases elem <;> simp [utterancesRef]

/-- C2: with the development flag unset and the mount target present, the
ref callback appends exactly one script element, and that element carries
src, async, crossorigin and the four set attributes with the fixed values
listed in the spec. -/
theorem utterances_prod_appends_script (nodeEnv : String) (e : DomElement)
    (h : nodeEnv ≠ "development") :
    utterancesRef nodeEnv (some e) =
      some { children := e.children ++ [utterancesScriptElem] } ∧
    utterancesScriptElem.src = "https://utteranc.es/client.js" ∧
    utterancesScriptElem.async = true ∧
    utterancesScriptElem.crossOrigin = "anonymous" ∧
    utterancesScriptElem.attributes =
      [("repo", "lukas-tr/blog"), ("issue-term", "title"),
       ("label", "comment"), ("theme", "github-light")] := by
  refine ⟨?_, rfl, rfl, rfl, rfl⟩
  simp [utterancesRef, beq_iff_eq, h]

/-- Witness for C2: mounting in production onto an empty target appends
the one configured script element. -/
theorem utterances_prod_appends_script_witness :
    utterancesRef "production" (some { children := [] }) =
      some { children := ([] : List ScriptElem) ++ [utterancesScriptElem] } ∧
    utterancesScriptElem.src = "https://utteranc.es/client.js" ∧
    utterancesScriptElem.async = true ∧
    utterancesScriptElem.crossOrigin = "anonymous" ∧
    utterancesScriptElem.attributes =
      [("repo", "lukas-tr/blog"), ("issue-term", "title"),
       ("label", "comment"), ("theme", "github-light")] :=
  utterances_prod_appends_script "production" { children := [] } (by decide)

/-- Counterexample for C3: in a context whose frontmatter has no title,
the rendered document title is the non-blank string "undefinedMy Blog",
neither undefined nor empty, so the title tag does not degrade to blank. -/
theorem body_missing_title_not_blank :
    (Body.render noFmTitleCtx).documentTitle = JSVal.str "undefinedMy Blog" ∧
    (Body.render noFmTitleCtx).documentTitle ≠ JSVal.undef ∧
    (Body.render noFmTitleCtx).documentTitle ≠ JSVal.str "" := by
  decide

/-- C3 (amended): rendering never throws (the render function is total),
and for each of description, author, image and site URL separately, a
context missing that field renders the corresponding tag contents as
undefined; but a context whose frontmatter has no title does not get a
blank document title: it is the string "undefined" concatenated with the
site title when the site title is a string, and NaN when the site title
is also absent. -/
theorem body_missing_fields_degrade (ctx : PageContext) :
    (ctx.siteMetadata.description = .undef →
      ∀ m ∈ (Body.render ctx).metaTags,
        (m.name = some "description" ∨ m.property = some "og:description" ∨
          m.name = some "twitter:description") → m.content = .undef) ∧
    (ctx.siteMetadata.author = .undef →
      ∀ m ∈ (Body.render ctx).metaTags,
        m.name = some "twitter:creator" → m.content = .undef) ∧
    (ctx.siteMetadata.image = .undef →
      ∀ m ∈ (Body.render ctx).metaTags,
        (m.property = some "og:image" ∨ m.name = some "twitter:image") →
          m.content = .undef) ∧
    (ctx.siteMetadata.siteUrl = .undef → (Body.render ctx).jsonLdUrl = .undef) ∧
    (ctx.frontmatter.title = .undef →
      (∀ s, ctx.siteMetadata.title = .str s →
        (Body.render ctx).documentTitle = .str ("undefined" ++ s)) ∧
      (ctx.siteMetadata.title = .undef →
        (Body.render ctx).documentTitle = .nan)) := by
  refine ⟨?_, ?_, ?_, fun hu => hu, ?_⟩
  · intro hd m hm hsel
    simp only [Body.render, List.mem_cons, List.not_mem_nil, or_false] at hm
    rcases hm with rfl | rfl | rfl | rfl | rfl | rfl | rfl | rfl | rfl | rfl <;>
      simp_all
  · intro ha m hm hsel
    simp only [Body.render, List.mem_cons, List.not_mem_nil, or_false] at hm
    rcases hm with rfl | rfl | rfl | rfl | rfl | rfl | rfl | rfl | rfl | rfl <;>
      simp_all
  · intro hi m hm hsel
    simp only [Body.render, List.mem_cons, List.not_mem_nil, or_false] at hm
    rcases hm with rfl | rfl | rfl | rfl | rfl | rfl | rfl | rfl | rfl | rfl <;>
      simp_all
  · intro hf
    constructor
    · intro s hs
      simp [Body.render, hf, hs, jsAnd, jsAdd, JSVal.truthy, JSVal.toStr]
    · intro hs
      simp [Body.render, hf, hs, jsAnd, jsAdd, JSVal.truthy, JSVal.toStr]

/-- Witness for the amended C3 at the fully empty context: the
description tag content is undefined, the JSON-LD url is undefined, and
the document title is NaN. -/
theorem body_missing_fields_degrade_witness :
    ({ name := some "description", property := none,
       content := JSVal.undef } : MetaTag).content = JSVal.undef ∧
    (Body.render emptyCtx).jsonLdUrl = .undef ∧
    (Body.render emptyCtx).documentTitle = .nan :=
  ⟨(body_missing_fields_degrade emptyCtx).1 rfl
      { name := some "description", property := none, content := JSVal.undef }
      (by decide) (Or.inl rfl),
   (body_missing_fields_degrade emptyCtx).2.2.2.1 rfl,
   ((body_missing_fields_degrade emptyCtx).2.2.2.2 rfl).2 rfl⟩

/-- C4: when the ref callback receives a null element, the component is a
silent no-op for every environment flag: no element exists afterwards and
no error is surfaced (the callback is total). -/
theorem utterances_null_target_noop (nodeEnv : String) :
    utterancesRef nodeEnv none = none := rfl

/-- C5: the page shell is pure: equal contexts render to identical markup,
and every operation its body performs on the context is a read (no write,
no network call). -/
theorem body_render_pure (c1 c2 : PageContext) (h : c1 = c2) :
    Body.render c1 = Body.render c2 ∧ ∀ op ∈ bodyRenderOps, op.isRead = true := by
  subst h
  exact ⟨rfl, by decide⟩

/-- Witness for C5 at a concrete context. -/
theorem body_render_pure_witness :
    Body.render emptyCtx = Body.render emptyCtx ∧
    ∀ op ∈ bodyRenderOps, op.isRead = true :=
  body_render_pure emptyCtx emptyCtx rfl

/-- C6: the plugin manifest is the fixed declared sequence, and in it the
markdown transformer entry precedes the page-creation entry. -/
theorem plugins_transformer_before_page_creator :
    plugins.findIdx (fun p => p.resolve == "gatsby-transformer-remark") <
      plugins.findIdx (fun p => p.resolve == "gatsby-remark-page-creator") ∧
    plugins.map PluginEntry.resolve =
      ["gatsby-plugin-sitemap", "gatsby-plugin-robots-txt",
       "gatsby-plugin-react-helmet", "gatsby-source-data",
       "gatsby-source-filesystem", "gatsby-plugin-stackbit-static-sass",
       "gatsby-transformer-remark", "gatsby-remark-page-creator",
       "@stackbit/gatsby-plugin-menus"] := by
  decide

/-- C7: in production with an available target there is no de-duplication:
n successive mounts append n copies of the script element. -/
theorem utterances_remount_reinjects (nodeEnv : String) (e : DomElement) (n : Nat)
    (h : nodeEnv ≠ "development") :
    utterancesMountN nodeEnv n (some e) =
      some { children := e.children ++ List.replicate n utterancesScriptElem } := by
  induction n generalizing e with
  | zero => simp [utterancesMountN]
  | succ n ih =>
    have step : utterancesRef nodeEnv (some e) =
        some { children := e.children ++ [utterancesScriptElem] } := by
      simp [utterancesRef, beq_iff_eq, h]
    calc utterancesMountN nodeEnv (n + 1) (some e)
        = utterancesMountN nodeEnv n (utterancesRef nodeEnv (some e)) := rfl
      _ = utterancesMountN nodeEnv n
            (some { children := e.children ++ [utterancesScriptElem] }) := by
          rw [step]
      _ = some { children := (e.children ++ [utterancesScriptElem])
            ++ List.replicate n utterancesScriptElem } := ih _
      _ = some { children := e.children
            ++ List.replicate (n + 1) utterancesScriptElem } := by
          simp [List.replicate_succ, List.append_assoc]

/-- Witness for C7: three production mounts onto an empty target give
three script children. -/
theorem utterances_remount_reinjects_witness :
    utterancesMountN "production" 3 (some { children := [] }) =
      some { children := ([] : List ScriptElem)
        ++ List.replicate 3 utterancesScriptElem } :=
  utterances_remount_reinjects "production" { children := [] } 3 (by decide)

/-- C8: the context is read-only to the page shell: running the trace of
operations the render body performs leaves every metadata and frontmatter
field of the input context unchanged. -/
theorem body_render_context_readonly (ctx : PageContext) :
    execOps bodyRenderOps ctx = ctx := rfl

/-- C9: when the frontmatter has no title but the site title is present,
the document title is the coercion of undefined concatenated with the site
title, which differs from the site title alone. -/
theorem body_undefined_title_coercion (ctx : PageContext) (s : String)
    (hf : ctx.frontmatter.title = .undef)
    (hs : ctx.siteMetadata.title = .str s) :
    (Body.render ctx).documentTitle = .str ("undefined" ++ s) ∧
    JSVal.str ("undefined" ++ s) ≠ JSVal.str s := by
  constructor
  · simp [Body.render, hf, hs, jsAnd, jsAdd, JSVal.truthy, JSVal.toStr]
  · intro hcontra
    have h2 := congrArg String.length (JSVal.str.inj hcontra)
    rw [String.length_append] at h2
    have h3 : "undefined".length = 9 := rfl
    rw [h3] at h2
    omega

/-- Witness for C9 at a concrete context. -/
theorem body_undefined_title_coercion_witness :
    (Body.render noFmTitleCtx).documentTitle = .str ("undefined" ++ "My Blog") ∧
    JSVal.str ("undefined" ++ "My Blog") ≠ JSVal.str "My Blog" :=
  body_undefined_title_coercion noFmTitleCtx "My Blog" rfl rfl

/-- C10: the sitemap plugin excludes exactly ["/admin"], and the robots
policy is exactly one rule allowing "/" to user agent "*". -/
theorem plugins_sitemap_robots_options :
    (plugins.find? (fun p => p.resolve == "gatsby-plugin-sitemap")).map
        (fun p => p.options.exclude) = some (some ["/admin"]) ∧
    (plugins.find? (fun p => p.resolve == "gatsby-plugin-robots-txt")).map
        (fun p => p.options.policy) =
      some (some [{ userAgent := "*", allow := "/" }]) := by
  decide
